import Mathlib

/-!
Shallow embedding of `src/tools/codespace-client/server.js`: the session-state
store, the SSE broadcaster, the lifecycle handlers and the HTTP route handlers,
with theorems checking the specification's claims against them.
-/

namespace Server

/-- The lifecycle statuses that `appState.status` takes in the source. -/
inductive Status
  | starting
  | qr
  | authenticated
  | ready
  | auth_failure
  | disconnected
  | launch_error
deriving DecidableEq, Repr

/-- The object built from `client.info` in the `ready` handler
(`pushname`, `wid?._serialized`, `platform`). -/
structure ClientInfo where
  pushname : Option String
  wid : Option String
  platform : Option String
deriving DecidableEq, Repr

/-- The mutable `appState` object (lines 14-21 of server.js); `lastUpdateAt`
is modelled as an abstract timestamp. -/
structure AppState where
  status : Status
  qr : Option String
  info : Option ClientInfo
  authFailure : Option String
  disconnectedReason : Option String
  lastUpdateAt : Nat
deriving DecidableEq, Repr

/-- The initial `appState`: `status: 'starting'`, every other field `null`,
`lastUpdateAt` stamped at construction time `t0`. -/
def initialState (t0 : Nat) : AppState :=
  { status := .starting
    qr := none
    info := none
    authFailure := none
    disconnectedReason := none
    lastUpdateAt := t0 }

/-- Model of `publicState()` (lines 25-32): copies every field of `appState` into a
fresh object; as a value it is the state itself. -/
def publicState (s : AppState) : AppState :=
  { status := s.status
    qr := s.qr
    info := s.info
    authFailure := s.authFailure
    disconnectedReason := s.disconnectedReason
    lastUpdateAt := s.lastUpdateAt }

/-- A partial update passed to `updateState`: `none` means the key is absent
from the partial object, `some v` means the key is present with value `v`
(where an inner `none` is JavaScript `null`). -/
structure StatePartial where
  status : Option Status := none
  qr : Option (Option String) := none
  info : Option (Option ClientInfo) := none
  authFailure : Option (Option String) := none
  disconnectedReason : Option (Option String) := none
deriving Repr

/-- The `Object.assign(appState, partial, { lastUpdateAt: ... })` merge inside
`updateState` (line 35): present keys overwrite, then `lastUpdateAt` is
stamped unconditionally. -/
def applyPartial (s : AppState) (p : StatePartial) (now : Nat) : AppState :=
  { status := p.status.getD s.status
    qr := p.qr.getD s.qr
    info := p.info.getD s.info
    authFailure := p.authFailure.getD s.authFailure
    disconnectedReason := p.disconnectedReason.getD s.disconnectedReason
    lastUpdateAt := now }

/-- Payload of a named SSE event (`data:` line), kept structured rather than
JSON-serialized. -/
inductive EventData
  | stateData (s : AppState)
  | messageData (mid : String)
deriving DecidableEq, Repr

/-- One write performed by the server on an SSE response stream. -/
inductive ServerWrite
  | retryHint
  | namedEvent (name : String) (data : EventData)
  | keepAliveComment
deriving DecidableEq, Repr

/-- Model of `updateState(partial)` (lines 34-37): merge the partial, stamp
`lastUpdateAt`, then broadcast exactly one `state` event carrying
`publicState()` of the state just produced. Returns the new state and the
list of broadcasts emitted by this call. -/
def updateState (s : AppState) (p : StatePartial) (now : Nat) :
    AppState × List ServerWrite :=
  let s' := applyPartial s p now
  (s', [ServerWrite.namedEvent "state" (.stateData (publicState s'))])

/-- Lifecycle events delivered by the client object, with the argument each
handler receives (`none` models an absent/`undefined` argument). -/
inductive LifecycleEvent
  | qrEvent (payload : String)
  | authenticated
  | readyEvent (info : Option ClientInfo)
  | authFailureEvent (msg : Option String)
  | disconnectedEvent (reason : Option String)
deriving DecidableEq, Repr

/-- JavaScript `x || d` on an optional string: `undefined`/`null` and the
empty string are falsy and give the default. -/
def jsOrString (x : Option String) (d : String) : String :=
  match x with
  | none => d
  | some s => if s = "" then d else s

/-- The partial each `client.on(...)` handler passes to `updateState`
(lines 116-142 of server.js), key for key. -/
def partialOfEvent : LifecycleEvent → StatePartial
  | .qrEvent payload =>
      { status := some .qr, qr := some (some payload),
        authFailure := some none, disconnectedReason := some none }
  | .authenticated =>
      { status := some .authenticated, qr := some none,
        authFailure := some none }
  | .readyEvent info =>
      { status := some .ready, qr := some none, info := some info,
        authFailure := some none, disconnectedReason := some none }
  | .authFailureEvent msg =>
      { status := some .auth_failure,
        authFailure := some (some (jsOrString msg "Authentication failed")) }
  | .disconnectedEvent reason =>
      { status := some .disconnected,
        disconnectedReason := some (some (jsOrString reason "Unknown reason")) }

/-- Dispatch one lifecycle event: the handler calls `updateState` with its
partial. -/
def handleEvent (s : AppState) (e : LifecycleEvent) (now : Nat) :
    AppState × List ServerWrite :=
  updateState s (partialOfEvent e) now

/-- Replay a timestamped sequence of lifecycle events over a state,
discarding the broadcasts. -/
def replay (s : AppState) (es : List (LifecycleEvent × Nat)) : AppState :=
  es.foldl (fun st en => (handleEvent st en.1 en.2).1) s

/-- The status each lifecycle event's handler writes into the state. -/
def statusOfEvent : LifecycleEvent → Status
  | .qrEvent _ => .qr
  | .authenticated => .authenticated
  | .readyEvent _ => .ready
  | .authFailureEvent _ => .auth_failure
  | .disconnectedEvent _ => .disconnected

/-- One SSE response stream registered in `sseClients`: the writes it has
received so far, and whether its next `write` throws (modelling a broken
stream). -/
structure Channel where
  failing : Bool
  received : List ServerWrite
deriving DecidableEq, Repr

/-- The loop body of `broadcast` (lines 39-44): `for (const res of sseClients)
res.write(payload)` with no try/catch. Writes in iteration order; the first
channel whose write throws stops the loop, the exception propagates (the
returned flag), and the set of channels is left unchanged — no channel is
removed. -/
def writeAll : List Channel → ServerWrite → List Channel × Bool
  | [], _ => ([], false)
  | c :: cs, w =>
    if c.failing then (c :: cs, true)
    else
      let r := writeAll cs w
      ({ c with received := c.received ++ [w] } :: r.1, r.2)

/-- The `/events` handler (lines 161-180): set SSE headers, write the
`retry: 2000` hint, add the stream to `sseClients`, then immediately write
one `state` event carrying `publicState()`. Returns the updated client set
and the writes made to the new stream, in order. -/
def handleEvents (s : AppState) (clients : List Channel) :
    List Channel × List ServerWrite :=
  let writes := [ServerWrite.retryHint,
                 ServerWrite.namedEvent "state" (.stateData (publicState s))]
  (clients ++ [{ failing := false, received := writes }], writes)

/-- A JavaScript value in a body field, as far as the validation
`!x || typeof x !== 'string'` distinguishes values: nested arrays/objects
are collapsed into `compositeA` since only string-ness and falsiness
matter. -/
inductive JSAtom
  | nullA
  | boolA (b : Bool)
  | numA (q : Int)
  | strA (s : String)
  | compositeA
deriving DecidableEq, Repr

/-- A parsed JSON request body. -/
inductive JSValue
  | nullV
  | boolV (b : Bool)
  | numV (q : Int)
  | strV (s : String)
  | arrV
  | objV (fields : List (String × JSAtom))
deriving DecidableEq, Repr

/-- Property lookup on a parsed body, as the destructuring
`const { chatId, message } = ...` sees it: a missing key, or any non-object
primitive, gives `undefined` (`none`). -/
def getField (v : JSValue) (key : String) : Option JSAtom :=
  match v with
  | .objV fields => (fields.find? (fun f => f.1 = key)).map Prod.snd
  | _ => none

/-- The possible shapes of a request body stream, abstracting the bytes. -/
inductive RawBody
  | emptyBody
  | tooLargeBody
  | malformedJson
  | wellFormed (v : JSValue)
deriving DecidableEq, Repr

/-- Model of `readBody` (lines 51-75): over 1,000,000 accumulated bytes rejects with
`Payload too large`; an empty body resolves to `{}` without parsing;
otherwise `JSON.parse`, rejecting with `Invalid JSON payload` on failure. -/
def readBody : RawBody → Except String JSValue
  | .emptyBody => .ok (.objV [])
  | .tooLargeBody => .error "Payload too large"
  | .malformedJson => .error "Invalid JSON payload"
  | .wellFormed v => .ok v

/-- Whether `needle` occurs at the start of `hay`. -/
def leadsWith : List Char → List Char → Bool
  | _, [] => true
  | [], _ :: _ => false
  | h :: hs, n :: ns => (h = n) && leadsWith hs ns

/-- Whether `needle` occurs contiguously anywhere in `hay`. -/
def containsSeq : List Char → List Char → Bool
  | [], needle => needle.isEmpty
  | h :: hs, needle => leadsWith (h :: hs) needle || containsSeq hs needle

/-- Model of `error.message.includes('JSON')` in the `/api/send` catch (line 257). -/
def includesJSON (msg : String) : Bool :=
  containsSeq msg.toList "JSON".toList

/-- Model of `!x || typeof x !== 'string'` — the validation applied to `chatId` and
`message`: only a non-empty string passes (an absent field, `null`, a
number, a boolean, an array/object, or `""` all fail). -/
def requiredString (x : Option JSAtom) : Option String :=
  match x with
  | some (.strA s) => if s = "" then none else some s
  | _ => none

/-- A chat object as the external session hands it over (`client.getChats()`),
with the fields `serializeChat` reads. Optional fields model
absent/`undefined`/`null` properties. -/
structure RawChat where
  idSerialized : String
  idUser : String
  name : Option String
  formattedTitle : Option String
  isGroup : Bool
  unreadCount : Option Nat
  timestamp : Option Nat
  lastMessageBody : Option String
  archived : Bool
  pinned : Bool
deriving DecidableEq, Repr

/-- The Chat projection produced by `serializeChat` (lines 77-86). -/
structure ChatProj where
  id : String
  name : String
  isGroup : Bool
  unreadCount : Nat
  timestamp : Option Nat
  lastMessageBody : String
  archived : Bool
  pinned : Bool
deriving DecidableEq, Repr

/-- Model of `serializeChat` (lines 77-86), falsy-coalescing field for field:
`name || formattedTitle || id.user`, `unreadCount || 0`,
`timestamp || null` (a zero timestamp is falsy and becomes `null`),
`lastMessage?.body || ''`. -/
def serializeChat (c : RawChat) : ChatProj :=
  { id := c.idSerialized
    name := jsOrString c.name (jsOrString c.formattedTitle c.idUser)
    isGroup := c.isGroup
    unreadCount := c.unreadCount.getD 0
    timestamp := match c.timestamp with
      | some 0 => none
      | t => t
    lastMessageBody := jsOrString c.lastMessageBody ""
    archived := c.archived
    pinned := c.pinned }

/-- The sort key `(x.timestamp || 0)` used by the `/api/chats` comparator. -/
def chatKey (c : RawChat) : Nat := c.timestamp.getD 0

/-- The `/api/chats` pipeline on a successful fetch (lines 195-199):
`chats.sort((a, b) => (b.timestamp || 0) - (a.timestamp || 0))`
— a stable sort descending by `chatKey`, as `Array.prototype.sort` is stable
and any stable sort agreeing with this comparator produces the same list —
then `.slice(0, MAX_CHAT_COUNT)`, then `.map(serializeChat)`. -/
def listChats (chats : List RawChat) (maxChatCount : Nat) : List ChatProj :=
  (((chats.insertionSort (fun a b => chatKey b ≤ chatKey a)).take
      maxChatCount).map serializeChat)

/-- The result of `Number(...)` on the `limit` query parameter: a finite
double (modelled exactly as a rational) or a non-finite value. -/
inductive JSNum
  | nan
  | posInf
  | negInf
  | finite (q : Rat)
deriving DecidableEq, Repr

/-- The limit computation of the messages route (lines 216-218):
`Number(searchParams.get('limit') || 40)` — an absent (or empty, hence
falsy) parameter becomes `40` before conversion — then
`Number.isFinite(r) ? Math.max(1, Math.min(r, 100)) : 40`. -/
def effectiveLimit (p : Option JSNum) : Rat :=
  let requested : JSNum := match p with
    | none => .finite 40
    | some n => n
  match requested with
  | .finite q => max 1 (min q 100)
  | _ => 40

/-- A JSON response body, kept structured. -/
inductive ResponseBody
  | errorBody (msg : String)
  | stateSnapshot (s : AppState)
  | chatList (cs : List ChatProj)
  | chatMessages (c : ChatProj) (mids : List String)
  | sendOk (mid : String)
  | healthOk
  | htmlPage
deriving DecidableEq, Repr

/-- Model of `POST /api/send` (lines 234-260): the readiness gate runs before the body
is read; then the body is read/parsed, `chatId` and `message` are validated
in that order, and the send is forwarded. Any rejection or throw lands in the
catch, which answers 400 when the error message contains `JSON` and 500
otherwise. The external `client.sendMessage` outcome is the parameter
`sendOutcome` (message id on success, error message on failure). -/
def handleSend (st : Status) (b : RawBody) (sendOutcome : Except String String) :
    Nat × ResponseBody :=
  if st ≠ .ready then (409, .errorBody "Client is not ready yet.")
  else
    match readBody b with
    | .error msg =>
        (if includesJSON msg then 400 else 500, .errorBody msg)
    | .ok v =>
      match v with
      | .nullV =>
          (500, .errorBody
            "Cannot destructure property 'chatId' of 'null' as it is null.")
      | _ =>
        match requiredString (getField v "chatId") with
        | none => (400, .errorBody "chatId is required.")
        | some _ =>
          match requiredString (getField v "message") with
          | none => (400, .errorBody "message is required.")
          | some _ =>
            match sendOutcome with
            | .ok mid => (200, .sendOk mid)
            | .error msg =>
                (if includesJSON msg then 400 else 500, .errorBody msg)

/-- Outcomes of the external client calls the GET routes make:
`client.getChats()`, `client.getChatById(chatId)` and
`chat.fetchMessages({ limit })` (messages given as id/timestamp pairs). -/
structure Upstream where
  getChats : Except String (List RawChat)
  getChatById : String → Except String RawChat
  fetchMessages : Rat → Except String (List (String × Option Nat))

/-- The GET routes of the request handler, with the `limit` search parameter
of the messages route carried as the `JSNum` that `Number(...)` produced
(`none` = parameter absent or empty). -/
inductive GetPath
  | root
  | apiState
  | apiChats
  | apiChatMessages (chatId : String) (lim : Option JSNum)
  | health
  | other
deriving Repr

/-- The GET branches of the request handler (lines 151-264): `/` serves the
HTML shell; `/api/state` answers 200 with `publicState()` unconditionally;
`/api/chats` and `/api/chats/{chatId}/messages` answer 409 unless
`status === 'ready'`, then call the client and answer 200 or 500;
`/health` answers 200; anything unmatched answers 404. -/
def handleGet (s : AppState) (maxChatCount : Nat) (up : Upstream) :
    GetPath → Nat × ResponseBody
  | .root => (200, .htmlPage)
  | .apiState => (200, .stateSnapshot (publicState s))
  | .apiChats =>
    if s.status ≠ .ready then (409, .errorBody "Client is not ready yet.")
    else
      match up.getChats with
      | .ok chats => (200, .chatList (listChats chats maxChatCount))
      | .error msg => (500, .errorBody msg)
  | .apiChatMessages chatId lim =>
    if s.status ≠ .ready then (409, .errorBody "Client is not ready yet.")
    else
      match up.getChatById chatId with
      | .error msg => (500, .errorBody msg)
      | .ok chat =>
        match up.fetchMessages (effectiveLimit lim) with
        | .error msg => (500, .errorBody msg)
        | .ok msgs =>
            (200, .chatMessages (serializeChat chat)
              ((msgs.insertionSort
                  (fun a b => a.2.getD 0 ≤ b.2.getD 0)).map Prod.fst))
  | .health => (200, .healthOk)
  | .other => (404, .errorBody "Not found")

/-- An upstream whose calls all fail, for exercising routes whose upstream
outcome is irrelevant. -/
def stubUpstream : Upstream :=
  { getChats := .error "stub"
    getChatById := fun _ => .error "stub"
    fetchMessages := fun _ => .error "stub" }

/-- An upstream that records in its error message the limit value the route
handed to `fetchMessages`. -/
def probeUpstream (chat : RawChat) : Upstream :=
  { getChats := .error "stub"
    getChatById := fun _ => .ok chat
    fetchMessages := fun l => .error (toString l) }

/-- Whether an SSE write is a named event (as opposed to the retry hint or a
keep-alive comment). -/
def isNamedEvent : ServerWrite → Bool
  | .namedEvent _ _ => true
  | _ => false

/-- A concrete chat record, used to exercise routes at concrete inputs. -/
def sampleChat : RawChat :=
  { idSerialized := "id1"
    idUser := "u1"
    name := some "Alice"
    formattedTitle := none
    isGroup := false
    unreadCount := some 2
    timestamp := some 5
    lastMessageBody := some "hi"
    archived := false
    pinned := false }

/-- A concrete state with `status: 'ready'`. -/
def readyState : AppState :=
  { status := .ready
    qr := none
    info := none
    authFailure := none
    disconnectedReason := none
    lastUpdateAt := 3 }

end Server

namespace Server

/-- C3: `updateState` merges the partial and is immediately followed by
exactly one `state` broadcast whose payload is `publicState()` of the state
just produced, and stamps `lastUpdateAt` with the current time whatever the
partial contains. -/
theorem update_broadcast_follows_mutation (s : AppState) (p : StatePartial)
    (now : Nat) :
    (updateState s p now).2 =
      [ServerWrite.namedEvent "state"
        (.stateData (publicState (updateState s p now).1))] ∧
    (updateState s p now).1.lastUpdateAt = now :=
  ⟨rfl, rfl⟩

/-- C9: a stream that connects to `/events` is appended to the client set and
receives, synchronously and for every current state, exactly the writes
`retry`-hint then one `state` event carrying the current snapshot — so its
first named event is the snapshot, with only the retry hint before it. -/
theorem subscribe_receives_snapshot (s : AppState) (clients : List Channel) :
    (handleEvents s clients).2 =
      [ServerWrite.retryHint,
       ServerWrite.namedEvent "state" (.stateData (publicState s))] ∧
    (handleEvents s clients).1 =
      clients ++ [{ failing := false, received := (handleEvents s clients).2 }] ∧
    (handleEvents s clients).2.filter isNamedEvent =
      [ServerWrite.namedEvent "state" (.stateData (publicState s))] :=
  ⟨rfl, rfl, rfl⟩

/-- C5 counterexample: with the session ready, an oversized body is rejected
with message `Payload too large`, which does not contain `JSON`, so the
`/api/send` catch answers 500 — not the 400 the claim asserts. -/
theorem oversized_body_gives_500 :
    handleSend .ready .tooLargeBody (.error "unused") =
      (500, .errorBody "Payload too large") ∧
    (handleSend .ready .tooLargeBody (.error "unused")).1 ≠ 400 := by
  decide

/-- C5 amended: an oversized body yields 500 (its rejection message lacks
the substring `JSON`), while a missing required field and a malformed JSON
body yield 400. -/
theorem oversized_body_unlike_other_invalid_input (o : Except String String) :
    handleSend .ready .tooLargeBody o = (500, .errorBody "Payload too large") ∧
    handleSend .ready .malformedJson o =
      (400, .errorBody "Invalid JSON payload") ∧
    handleSend .ready (.wellFormed (.objV [])) o =
      (400, .errorBody "chatId is required.") := by
  have h1 : includesJSON "Payload too large" = false := by decide
  have h2 : includesJSON "Invalid JSON payload" = true := by decide
  refine ⟨?_, ?_, ?_⟩ <;>
    simp [handleSend, readBody, h1, h2, getField, requiredString, List.find?]

/-- C6: the effective limit of the messages route is the requested value
clamped to [1, 100] when finite, and 40 when the parameter is absent or
non-finite (limit=0 gives 1, limit=500 gives 100); the route hands exactly
this value to the message fetch. -/
theorem limit_clamping :
    (∀ q : Rat, effectiveLimit (some (.finite q)) = max 1 (min q 100) ∧
      1 ≤ effectiveLimit (some (.finite q)) ∧
      effectiveLimit (some (.finite q)) ≤ 100) ∧
    effectiveLimit none = 40 ∧
    effectiveLimit (some .nan) = 40 ∧
    effectiveLimit (some .posInf) = 40 ∧
    effectiveLimit (some .negInf) = 40 ∧
    effectiveLimit (some (.finite 0)) = 1 ∧
    effectiveLimit (some (.finite 500)) = 100 ∧
    ∀ (s : AppState) (n : Nat) (cid : String) (lim : Option JSNum)
      (chat : RawChat), s.status = .ready →
      handleGet s n (probeUpstream chat) (.apiChatMessages cid lim) =
        (500, .errorBody (toString (effectiveLimit lim))) := by
  refine ⟨fun q => ⟨rfl, le_max_left 1 _, max_le (by norm_num) (min_le_right q 100)⟩,
    rfl, rfl, rfl, rfl, by norm_num [effectiveLimit], by norm_num [effectiveLimit],
    fun s n cid lim chat h => ?_⟩
  simp [handleGet, h, probeUpstream]

/-- C6 witness: at `limit=500` from the ready state the probe records that
the fetch was invoked with 100. -/
theorem limit_clamping_witness :
    handleGet readyState 100 (probeUpstream sampleChat)
        (.apiChatMessages "c" (some (.finite 500))) =
      (500, .errorBody (toString (effectiveLimit (some (.finite 500))))) :=
  limit_clamping.2.2.2.2.2.2.2 readyState 100 "c" (some (.finite 500))
    sampleChat rfl

/-- C10: `POST /api/send` checks readiness before reading the body, so any
body — malformed, oversized, missing fields — gets 409 while the status is
not `ready`; and when ready, an entirely empty body resolves to `{}` and
yields the missing-chatId 400, not a parse error. -/
theorem send_ready_gate_precedes_body (st : Status) (b : RawBody)
    (o : Except String String) (h : st ≠ .ready) :
    handleSend st b o = (409, .errorBody "Client is not ready yet.") ∧
    handleSend .ready .emptyBody o = (400, .errorBody "chatId is required.") := by
  constructor
  · simp [handleSend, h]
  · simp [handleSend, readBody, getField, requiredString, List.find?]

/-- C10 witness: with status `starting` a malformed body still gets 409. -/
theorem send_ready_gate_precedes_body_witness :
    handleSend .starting .malformedJson (.error "e") =
      (409, .errorBody "Client is not ready yet.") ∧
    handleSend .ready .emptyBody (.error "e") =
      (400, .errorBody "chatId is required.") :=
  send_ready_gate_precedes_body .starting .malformedJson (.error "e")
    (by decide)

/-- C1 counterexample: `GET /api/state` is an API GET other than `/`,
`/events`, `/health`, yet with status `starting` it answers 200 with the
snapshot, not the 409 the claim asserts for every such endpoint. -/
theorem api_state_not_gated :
    (initialState 0).status ≠ .ready ∧
    handleGet (initialState 0) 100 stubUpstream .apiState =
      (200, .stateSnapshot (publicState (initialState 0))) ∧
    (handleGet (initialState 0) 100 stubUpstream .apiState).1 ≠ 409 := by
  refine ⟨by decide, rfl, by decide⟩

/-- C1 amended: while the status is not `ready`, `GET /api/chats` and
`GET /api/chats/{chatId}/messages` answer 409 with
`{error:"Client is not ready yet."}`, but `GET /api/state` answers 200 with
the state snapshot regardless of status. -/
theorem ready_gate_on_chat_routes (s : AppState) (n : Nat) (up : Upstream)
    (cid : String) (lim : Option JSNum) (h : s.status ≠ .ready) :
    handleGet s n up .apiChats = (409, .errorBody "Client is not ready yet.") ∧
    handleGet s n up (.apiChatMessages cid lim) =
      (409, .errorBody "Client is not ready yet.") ∧
    handleGet s n up .apiState = (200, .stateSnapshot (publicState s)) := by
  refine ⟨?_, ?_, rfl⟩ <;> simp [handleGet, h]

/-- C1 amended witness: at the initial state the chat routes answer 409 and
`/api/state` answers 200. -/
theorem ready_gate_on_chat_routes_witness :
    handleGet (initialState 0) 100 stubUpstream .apiChats =
      (409, .errorBody "Client is not ready yet.") ∧
    handleGet (initialState 0) 100 stubUpstream (.apiChatMessages "c" none) =
      (409, .errorBody "Client is not ready yet.") ∧
    handleGet (initialState 0) 100 stubUpstream .apiState =
      (200, .stateSnapshot (publicState (initialState 0))) :=
  ready_gate_on_chat_routes (initialState 0) 100 stubUpstream "c" none
    (by decide)

/-- Every lifecycle handler writes a definite status into the state. -/
lemma status_after_handleEvent (s : AppState) (e : LifecycleEvent) (now : Nat) :
    ((handleEvent s e now).1).status = statusOfEvent e := by
  cases e <;> rfl

/-- After any single lifecycle event, a non-null `qr` field forces the status
to be `qr`, `auth_failure` or `disconnected`: the `qr` handler sets both, the
`authenticated` and `ready` handlers null `qr` out, and only the
`auth_failure` and `disconnected` handlers leave `qr` untouched. -/
lemma qr_status_after_handleEvent (s : AppState) (e : LifecycleEvent)
    (now : Nat) :
    (handleEvent s e now).1.qr ≠ none →
      (handleEvent s e now).1.status = .qr ∨
      (handleEvent s e now).1.status = .auth_failure ∨
      (handleEvent s e now).1.status = .disconnected := by
  cases e with
  | qrEvent p => exact fun _ => Or.inl rfl
  | authenticated => exact fun h => absurd rfl h
  | readyEvent i => exact fun h => absurd rfl h
  | authFailureEvent m => exact fun _ => Or.inr (Or.inl rfl)
  | disconnectedEvent r => exact fun _ => Or.inr (Or.inr rfl)

/-- The qr/status invariant is preserved by any replay. -/
lemma qr_status_replay : ∀ (es : List (LifecycleEvent × Nat)) (s : AppState),
    (s.qr ≠ none →
      s.status = .qr ∨ s.status = .auth_failure ∨ s.status = .disconnected) →
    ((replay s es).qr ≠ none →
      (replay s es).status = .qr ∨ (replay s es).status = .auth_failure ∨
      (replay s es).status = .disconnected)
  | [], _, h => h
  | e :: rest, s, _ =>
      qr_status_replay rest (handleEvent s e.1 e.2).1
        (qr_status_after_handleEvent s e.1 e.2)

/-- Replaying one more event applies its handler to the replayed state. -/
lemma replay_append (s : AppState) (es : List (LifecycleEvent × Nat))
    (en : LifecycleEvent × Nat) :
    replay s (es ++ [en]) = (handleEvent (replay s es) en.1 en.2).1 := by
  simp [replay, List.foldl_append]

/-- C2 counterexample: after the sequence qr-then-disconnected the status is
`disconnected` but the qr payload is retained, not cleared — so a field
irrelevant to the final status stays stale and `qr` is non-null while the
status is not `qr`. -/
theorem qr_retained_after_disconnect :
    (replay (initialState 0)
      [(.qrEvent "QR", 1), (.disconnectedEvent none, 2)]).status =
        .disconnected ∧
    (replay (initialState 0)
      [(.qrEvent "QR", 1), (.disconnectedEvent none, 2)]).qr = some "QR" :=
  ⟨rfl, rfl⟩

/-- C2 amended: after replaying any nonempty sequence of lifecycle events the
status equals the status implied by the last event, but each handler clears
only the fields it lists: `auth_failure` and `disconnected` retain a stale
qr payload, so `qr` is non-null only when the status is `qr`,
`auth_failure` or `disconnected` (rather than only when it is `qr`). -/
theorem replay_status_tracks_last_event (t0 : Nat)
    (es : List (LifecycleEvent × Nat)) (en : LifecycleEvent × Nat) :
    (replay (initialState t0) (es ++ [en])).status = statusOfEvent en.1 ∧
    ∀ fs : List (LifecycleEvent × Nat),
      (replay (initialState t0) fs).qr ≠ none →
        (replay (initialState t0) fs).status = .qr ∨
        (replay (initialState t0) fs).status = .auth_failure ∨
        (replay (initialState t0) fs).status = .disconnected := by
  constructor
  · rw [replay_append]
    exact status_after_handleEvent _ _ _
  · intro fs
    exact qr_status_replay fs (initialState t0) (fun h => absurd rfl h)

/-- C2 amended witness: the qr-then-disconnected replay instantiates both
parts — the status follows the last event, and the retained qr payload is
covered by the weakened invariant. -/
theorem replay_status_tracks_last_event_witness :
    (replay (initialState 0)
      [(.qrEvent "Q", 1)]).status = statusOfEvent (.qrEvent "Q") ∧
    ((replay (initialState 0)
      [(.qrEvent "Q", 1), (.disconnectedEvent none, 2)]).status = .qr ∨
     (replay (initialState 0)
      [(.qrEvent "Q", 1), (.disconnectedEvent none, 2)]).status = .auth_failure ∨
     (replay (initialState 0)
      [(.qrEvent "Q", 1), (.disconnectedEvent none, 2)]).status = .disconnected) :=
  ⟨(replay_status_tracks_last_event 0 [] (.qrEvent "Q", 1)).1,
   (replay_status_tracks_last_event 0 [] (.qrEvent "Q", 1)).2
     [(.qrEvent "Q", 1), (.disconnectedEvent none, 2)] (by decide)⟩

/-- The field validation succeeds exactly on a present, non-empty string. -/
lemma requiredString_eq_some {x : Option JSAtom} {c : String}
    (h : requiredString x = some c) : x = some (.strA c) ∧ c ≠ "" := by
  match x with
  | none => simp [requiredString] at h
  | some .nullA => simp [requiredString] at h
  | some (.boolA b) => simp [requiredString] at h
  | some (.numA q) => simp [requiredString] at h
  | some .compositeA => simp [requiredString] at h
  | some (.strA s) =>
    by_cases hs : s = ""
    · simp [requiredString, hs] at h
    · simp [requiredString, hs] at h
      exact ⟨by rw [h], h ▸ hs⟩

/-- C8: with the session ready, body `{}` yields 400 chatId-required, body
`{"chatId":"123"}` yields 400 message-required, a malformed JSON body yields
400 with the JSON-parse error text, and whenever the send goes through both
fields were present as non-empty strings. -/
theorem send_field_validation :
    (∀ o, handleSend .ready (.wellFormed (.objV [])) o =
      (400, .errorBody "chatId is required.")) ∧
    (∀ o, handleSend .ready
        (.wellFormed (.objV [("chatId", .strA "123")])) o =
      (400, .errorBody "message is required.")) ∧
    (∀ o, handleSend .ready .malformedJson o =
      (400, .errorBody "Invalid JSON payload")) ∧
    includesJSON "Invalid JSON payload" = true ∧
    (∀ (v : JSValue) (mid : String),
      handleSend .ready (.wellFormed v) (.ok mid) = (200, .sendOk mid) →
      ∃ c m : String, getField v "chatId" = some (.strA c) ∧ c ≠ "" ∧
        getField v "message" = some (.strA m) ∧ m ≠ "") := by
  have hJ : includesJSON "Invalid JSON payload" = true := by decide
  refine ⟨fun o => rfl, fun o => rfl, fun o => ?_, hJ, ?_⟩
  · simp [handleSend, readBody, hJ]
  · intro v mid h
    cases v with
    | nullV => simp [handleSend, readBody] at h
    | boolV b => simp [handleSend, readBody, getField, requiredString] at h
    | numV q => simp [handleSend, readBody, getField, requiredString] at h
    | strV s => simp [handleSend, readBody, getField, requiredString] at h
    | arrV => simp [handleSend, readBody, getField, requiredString] at h
    | objV fields =>
      simp only [handleSend, readBody] at h
      rcases hc : requiredString (getField (JSValue.objV fields) "chatId")
        with _ | c
      · rw [hc] at h; simp at h
      · rw [hc] at h
        rcases hm : requiredString (getField (JSValue.objV fields) "message")
          with _ | m
        · rw [hm] at h; simp at h
        · obtain ⟨hx, hc0⟩ := requiredString_eq_some hc
          obtain ⟨hy, hm0⟩ := requiredString_eq_some hm
          exact ⟨c, m, hx, hc0, hy, hm0⟩

/-- C8 witness: a body with both fields present as non-empty strings passes
the validation and the send proceeds. -/
theorem send_field_validation_witness :
    ∃ c m : String,
      getField (.objV [("chatId", .strA "x"), ("message", .strA "y")])
        "chatId" = some (.strA c) ∧ c ≠ "" ∧
      getField (.objV [("chatId", .strA "x"), ("message", .strA "y")])
        "message" = some (.strA m) ∧ m ≠ "" :=
  send_field_validation.2.2.2.2
    (.objV [("chatId", .strA "x"), ("message", .strA "y")]) "SENT" (by decide)

/-- C4 counterexample: broadcasting over the set live-failing-live delivers
only to the first channel — the channel after the failing one receives
nothing, the exception escapes the loop, and the failing channel is still in
the set, contradicting both halves of the claim. -/
theorem broadcast_failure_interrupts :
    writeAll [⟨false, []⟩, ⟨true, []⟩, ⟨false, []⟩] .retryHint =
      ([⟨false, [.retryHint]⟩, ⟨true, []⟩, ⟨false, []⟩], true) ∧
    Channel.mk true [] ∈
      (writeAll [⟨false, []⟩, ⟨true, []⟩, ⟨false, []⟩] .retryHint).1 := by
  decide

/-- C4 amended: `broadcast` writes to channels in iteration order with no
error handling: when no channel fails every channel receives the payload,
but a failing channel stops the loop — channels after it receive nothing,
the exception propagates to the caller, and the failing channel is not
removed from the set (removal happens only in the connection's own close
handler). -/
theorem broadcast_stops_at_failing_channel :
    (∀ (cs : List Channel) (w : ServerWrite), (∀ c ∈ cs, c.failing = false) →
      writeAll cs w =
        (cs.map (fun c => { c with received := c.received ++ [w] }), false)) ∧
    (∀ (pre : List Channel) (bad : Channel) (post : List Channel)
        (w : ServerWrite),
      (∀ c ∈ pre, c.failing = false) → bad.failing = true →
      writeAll (pre ++ bad :: post) w =
        (pre.map (fun c => { c with received := c.received ++ [w] }) ++
          bad :: post, true)) := by
  constructor
  · intro cs w h
    induction cs with
    | nil => rfl
    | cons c cs ih =>
      have hc : c.failing = false := h c (List.mem_cons_self c cs)
      simp [writeAll, hc, ih (fun d hd => h d (List.mem_cons_of_mem c hd))]
  · intro pre bad post w h hbad
    induction pre with
    | nil => simp [writeAll, hbad]
    | cons c cs ih =>
      have hc : c.failing = false := h c (List.mem_cons_self c cs)
      simp [writeAll, hc, ih (fun d hd => h d (List.mem_cons_of_mem c hd))]

/-- C4 amended witness: an all-live pair is fully delivered, and the
live-failing-live set stops after the first channel. -/
theorem broadcast_stops_at_failing_channel_witness :
    writeAll [Channel.mk false []] .retryHint =
      ([Channel.mk false []].map
        (fun c => { c with received := c.received ++ [ServerWrite.retryHint] }),
       false) ∧
    writeAll ([Channel.mk false []] ++ Channel.mk true [] ::
        [Channel.mk false []]) .retryHint =
      ([Channel.mk false []].map
        (fun c => { c with received := c.received ++ [ServerWrite.retryHint] }) ++
        Channel.mk true [] :: [Channel.mk false []], true) :=
  ⟨broadcast_stops_at_failing_channel.1 [Channel.mk false []] .retryHint
     (by decide),
   broadcast_stops_at_failing_channel.2 [Channel.mk false []]
     (Channel.mk true []) [Channel.mk false []] .retryHint (by decide) rfl⟩

/-- A chat with last-activity timestamp 5. -/
def chatTs5 : RawChat := { sampleChat with idSerialized := "five", timestamp := some 5 }

/-- A chat with no last-activity timestamp. -/
def chatTsNone : RawChat := { sampleChat with idSerialized := "never", timestamp := none }

/-- A chat with last-activity timestamp 3. -/
def chatTs3 : RawChat := { sampleChat with idSerialized := "three", timestamp := some 3 }

/-- C7: the chat-list pipeline outputs a permutation of the fetched chats
sorted descending by last-activity timestamp (a missing timestamp counts
as 0), truncated after sorting to the configured maximum count, projected
through `serializeChat`; on timestamps [5, null, 3] the output order is
[5, 3, null]. -/
theorem chat_list_sorted_truncated_projected :
    (∀ (chats : List RawChat) (n : Nat),
      ∃ p : List RawChat, chats.Perm p ∧
        p.Pairwise (fun a b => chatKey b ≤ chatKey a) ∧
        listChats chats n = (p.take n).map serializeChat ∧
        (listChats chats n).length = min n chats.length) ∧
    listChats [chatTs5, chatTsNone, chatTs3] 100 =
      [serializeChat chatTs5, serializeChat chatTs3,
       serializeChat chatTsNone] ∧
    (listChats [chatTs5, chatTsNone, chatTs3] 100).map ChatProj.timestamp =
      [some 5, some 3, none] := by
  haveI : IsTotal RawChat (fun a b => chatKey b ≤ chatKey a) :=
    ⟨fun a b => le_total (chatKey b) (chatKey a)⟩
  haveI : IsTrans RawChat (fun a b => chatKey b ≤ chatKey a) :=
    ⟨fun _ _ _ hab hbc => le_trans hbc hab⟩
  refine ⟨fun chats n => ?_, by decide, by decide⟩
  refine ⟨chats.insertionSort (fun a b => chatKey b ≤ chatKey a),
    (List.perm_insertionSort _ chats).symm,
    List.sorted_insertionSort _ chats, rfl, ?_⟩
  simp [listChats, List.length_take, List.length_insertionSort]

end Server
